import Mathlib

/-!
Shallow embedding of the xr-satviz backend (src/main.py) in Lean 4.

Python strings are modelled as Lean String / List Char.  The helpers
pyIsSpace, pyStrip, pySplitlines model the Python methods str.strip and
str.splitlines as used by the code; line boundaries are restricted to
the newline conventions that occur in the modelled protocol (LF, CR,
CRLF).  The external collaborators (the requests HTTP client and the
skyfield propagator) are modelled as explicit function arguments,
following the spec, which treats them as pure collaborators; float
arithmetic of the propagation pipeline is idealised over the reals, and
the Python round builtin is idealised as round-half-up (it only ever
has to be evaluated at exact points here).
-/

namespace SatViz

/-- Default whitespace characters of Python str.strip (space, tab,
newline, carriage return, vertical tab, form feed). -/
def pyIsSpace (c : Char) : Bool :=
  c = ' ' || c = '\t' || c = '\n' || c = '\r' || c = Char.ofNat 11 || c = Char.ofNat 12

/-- Python str.strip: drop whitespace from both ends. -/
def pyStrip (l : List Char) : List Char :=
  ((l.dropWhile pyIsSpace).reverse.dropWhile pyIsSpace).reverse

/-- Helper for pySplitlines: prepend a character to the first line of an
already-split list of lines. -/
def consHead (c : Char) : List (List Char) → List (List Char)
  | [] => [[c]]
  | l :: ls => (c :: l) :: ls

/-- Python str.splitlines, restricted to the LF / CR / CRLF line
boundaries relevant to the modelled text protocol.  A trailing boundary
does not produce a final empty line, and the empty string yields no
lines, exactly as in Python. -/
def pySplitlines : List Char → List (List Char)
  | [] => []
  | '\n' :: cs => [] :: pySplitlines cs
  | '\r' :: '\n' :: cs => [] :: pySplitlines cs
  | '\r' :: cs => [] :: pySplitlines cs
  | c :: cs => consHead c (pySplitlines cs)

/-- Python str.lower restricted to ASCII case mapping (the satellite
keywords are ASCII). -/
def lowerStr (s : String) : String :=
  ⟨s.data.map Char.toLower⟩

/-- Does the list needle start the list hay? (List Char version of
Python startswith, used to define substring containment.) -/
def startsWithL : List Char → List Char → Bool
  | [], _ => true
  | _ :: _, [] => false
  | a :: as, b :: bs => a = b && startsWithL as bs

/-- Python substring containment: needle occurs contiguously in hay
(the semantics of the Python expression keyword in prompt_lower). -/
def occursIn (needle : List Char) : List Char → Bool
  | [] => startsWithL needle []
  | c :: rest => startsWithL needle (c :: rest) || occursIn needle rest

/-- String wrapper for occursIn. -/
def containsKw (kw s : String) : Bool := occursIn kw.data s.data

/-- The static satellite table of src/main.py (lines 12-23), in declared
order: keyword to canonical catalog name. -/
def SATELLITES : List (String × String) :=
  [("iss", "ISS (ZARYA)"),
   ("hubble", "HST"),
   ("starlink", "STARLINK-1007"),
   ("noaa", "NOAA 18"),
   ("tiangong", "CSS (TIANHE)"),
   ("gps", "GPS BIIA-10"),
   ("aqua", "AQUA"),
   ("terra", "TERRA"),
   ("landsat", "LANDSAT 8"),
   ("goes", "GOES 16")]

/-- find_satellite of src/main.py (lines 39-46): lower-case the prompt,
scan the table in declared order, return the canonical name of the
first keyword contained in the prompt, defaulting to ISS (ZARYA). -/
def find_satellite (prompt : String) : String :=
  let prompt_lower := lowerStr prompt
  match SATELLITES.find? (fun kv => containsKw kv.1 prompt_lower) with
  | some kv => kv.2
  | none => "ISS (ZARYA)"

/-- Outcome of the single HTTP GET performed by requests.get: the call
either raises a timeout exception, raises a connection-failure
exception (each carrying a library-supplied message), or yields a
response object with a status code and a text body.  requests.get does
not raise on a non-2xx status. -/
inductive HttpOutcome where
  | timeout (msg : String)
  | connectionFailure (msg : String)
  | response (status : ℕ) (body : String)
deriving DecidableEq

/-- Errors that can escape fetch_tle: the ValueError it raises itself
(not-found, carrying the resolved name), or a propagated transport
exception of the HTTP client. -/
inductive Err where
  | notFound (sat_name : String)
  | transport (msg : String)
deriving DecidableEq

deriving instance DecidableEq for Except

/-- The templated catalog URL of src/main.py line 50: the f-string
substitutes the name verbatim, with no URL-encoding. -/
def tle_url (sat_name : String) : String :=
  "https://celestrak.org/NORAD/elements/gp.php?NAME=" ++ sat_name ++ "&FORMAT=tle"

/-- Body handling of fetch_tle (src/main.py lines 52-57): split the
stripped response text into lines; fewer than 3 lines raises the
not-found ValueError, otherwise the first three lines are returned,
each stripped. -/
def validate_tle (sat_name : String) (body : String) :
    Except Err (String × String × String) :=
  let lines := pySplitlines (pyStrip body.data)
  if h : lines.length < 3 then
    .error (.notFound sat_name)
  else
    .ok (⟨pyStrip (lines.get ⟨0, by omega⟩)⟩,
         ⟨pyStrip (lines.get ⟨1, by omega⟩)⟩,
         ⟨pyStrip (lines.get ⟨2, by omega⟩)⟩)

/-- fetch_tle of src/main.py (lines 48-57): one GET to the templated
URL; transport exceptions of the client propagate, any received
response has its body parsed regardless of HTTP status. -/
def fetch_tle (get : String → HttpOutcome) (sat_name : String) :
    Except Err (String × String × String) :=
  match get (tle_url sat_name) with
  | .timeout msg => .error (.transport msg)
  | .connectionFailure msg => .error (.transport msg)
  | .response _ body => validate_tle sat_name body

/-- Modelled from the spec: URL-encoding of a name substituted into the
templated catalog URL.  The spec requires encoding for names containing
spaces and parentheses, so those characters are percent-encoded here
(RFC 3986 percent escapes); all other characters are kept. -/
def urlEncode (s : String) : String :=
  ⟨s.data.foldr (fun c acc =>
      if c = ' ' then '%' :: '2' :: '0' :: acc
      else if c = '(' then '%' :: '2' :: '8' :: acc
      else if c = ')' then '%' :: '2' :: '9' :: acc
      else c :: acc) []⟩

/-- Output of the external skyfield propagator for one instant
(satellite.at(t) together with wgs84.subpoint): geocentric position in
km, geocentric velocity in km/s, and the sub-satellite point (latitude
and longitude in degrees, elevation in km).  Field order:
x, y, z, vx, vy, vz, lat, lon, alt. -/
structure Geocentric where
  x : ℝ
  y : ℝ
  z : ℝ
  vx : ℝ
  vy : ℝ
  vz : ℝ
  lat : ℝ
  lon : ℝ
  alt : ℝ

/-- The external orbit propagator as a pure function of the instant
(terrestrial-time Julian date, modelled exactly as a rational), per the
contract in the spec. -/
structure Satellite where
  atTime : ℚ → Geocentric

/-- One trajectory sample of calculate_trajectory (src/main.py lines
72-79): scaled position and ground-track data.  Field order:
x, y, z, lat, lon, alt. -/
structure TrajPoint where
  x : ℝ
  y : ℝ
  z : ℝ
  lat : ℝ
  lon : ℝ
  alt : ℝ

/-- The sample instant of iteration i of calculate_trajectory
(src/main.py line 65): now.tt + (i * 10) / 86400 Julian days, i.e.
10 simulated seconds per step. -/
def trajTime (now : ℚ) (i : ℕ) : ℚ := now + (i * 10) / 86400

/-- calculate_trajectory of src/main.py (lines 59-81): 6 samples per
minute for duration_minutes minutes; each sample holds the propagated
position divided by the fixed display scale 1000 plus the ground-track
latitude, longitude and altitude. -/
noncomputable def calculate_trajectory (satellite : Satellite) (now : ℚ)
    (duration_minutes : ℕ) : List TrajPoint :=
  (List.range (duration_minutes * 6)).map (fun i =>
    let geocentric := satellite.atTime (trajTime now i)
    ⟨geocentric.x / 1000, geocentric.y / 1000, geocentric.z / 1000,
     geocentric.lat, geocentric.lon, geocentric.alt⟩)

/-- One entry of the city-pass list (src/main.py lines 103-108). -/
structure CityPass where
  city : String
  distance : ℝ
  lat : ℝ
  lon : ℝ

/-- The static city table of src/main.py (lines 26-37), in declared
order: name, latitude, longitude. -/
noncomputable def CITIES : List (String × ℝ × ℝ) :=
  [("London", 51.5074, -0.1278),
   ("New York", 40.7128, -74.0060),
   ("Tokyo", 35.6762, 139.6503),
   ("Paris", 48.8566, 2.3522),
   ("Beijing", 39.9042, 116.4074),
   ("Sydney", -33.8688, 151.2093),
   ("Mumbai", 19.0760, 72.8777),
   ("Los Angeles", 34.0522, -118.2437),
   ("Dubai", 25.2048, 55.2708),
   ("Singapore", 1.3521, 103.8198)]

/-- The Python builtin round(x, ndigits), idealised over the reals with
round-half-up ties (Python uses ties-to-even on floats; the difference
only matters at exact half-way points, which the claims never hit). -/
noncomputable def pyRound (ndigits : ℕ) (x : ℝ) : ℝ :=
  (round (x * 10 ^ ndigits) : ℤ) / 10 ^ ndigits

/-- calculate_city_passes of src/main.py (lines 83-110): for each city
in declared order, recompute the current subpoint, take the Euclidean
distance in degree-space to the city, and emit the city with the
distance converted to km by the fixed 111 km/degree factor whenever the
degree distance is strictly below 10. -/
noncomputable def calculate_city_passes (satellite : Satellite) (now : ℚ)
    (cities : List (String × ℝ × ℝ)) : List CityPass :=
  match cities with
  | [] => []
  | (city_name, lat, lon) :: rest =>
    let subpoint := satellite.atTime now
    let distance := Real.sqrt ((subpoint.lat - lat) ^ 2 + (subpoint.lon - lon) ^ 2)
    (if distance < 10 then [⟨city_name, pyRound 1 (distance * 111), lat, lon⟩]
     else []) ++ calculate_city_passes satellite now rest

/-- JSON values, as produced by flask jsonify. -/
inductive Json where
  | null
  | bool (b : Bool)
  | num (x : ℝ)
  | str (s : String)
  | arr (xs : List Json)
  | obj (fields : List (String × Json))

/-- Keys of a JSON object (empty for non-objects). -/
def jsonKeys : Json → List String
  | .obj fields => fields.map Prod.fst
  | _ => []

/-- Field lookup in a JSON object. -/
def jsonLookup : Json → String → Option Json
  | .obj fields, k => fields.lookup k
  | _, _ => none

/-- The ASCII apostrophe, kept as a named constant for building the
Python error message text. -/
def sq : String := String.singleton (Char.ofNat 39)

/-- str(e) for the exceptions reaching the top-level handler: the
ValueError message built on src/main.py line 55, or the transport
exception message of the HTTP client. -/
def errMsg : Err → String
  | .notFound sat_name => "Satellite " ++ sq ++ sat_name ++ sq ++ " not found"
  | .transport msg => msg

/-- JSON encoding of one trajectory sample (src/main.py lines 72-79). -/
def trajPointJson (p : TrajPoint) : Json :=
  .obj [("x", .num p.x), ("y", .num p.y), ("z", .num p.z),
        ("lat", .num p.lat), ("lon", .num p.lon), ("alt", .num p.alt)]

/-- JSON encoding of one city pass (src/main.py lines 103-108). -/
def cityPassJson (p : CityPass) : Json :=
  .obj [("city", .str p.city), ("distance", .num p.distance),
        ("lat", .num p.lat), ("lon", .num p.lon)]

/-- JSON encoding of one static city entry (src/main.py line 173). -/
def cityJson (c : String × ℝ × ℝ) : Json :=
  .obj [("name", .str c.1), ("lat", .num c.2.1), ("lon", .num c.2.2)]

/-- get_satellite of src/main.py (lines 112-182): resolve the prompt,
fetch the elements, and either assemble the full success payload from
the propagator outputs (mkSat abstracts EarthSatellite construction,
now abstracts ts.now()) or catch the failure and answer 500 with the
uniform error envelope. -/
noncomputable def get_satellite (get : String → HttpOutcome)
    (mkSat : String → String → String → Satellite) (now : ℚ)
    (body : String) : ℕ × Json :=
  match fetch_tle get (find_satellite body) with
  | .error e =>
    (500, .obj [("success", .bool false),
                ("error", .str (errMsg e)),
                ("message", .str "Try: ISS, Starlink, Hubble, NOAA, Tiangong")])
  | .ok (name, line1, line2) =>
    let satellite := mkSat line1 line2 name
    let geocentric := satellite.atTime now
    let distance := Real.sqrt (geocentric.x ^ 2 + geocentric.y ^ 2 + geocentric.z ^ 2)
    let altitude := geocentric.alt
    let latency_ms := distance / 299792.458 * 1000
    let velocity := Real.sqrt (geocentric.vx ^ 2 + geocentric.vy ^ 2 + geocentric.vz ^ 2)
    (200, .obj [("success", .bool true),
                ("name", .str name),
                ("position", .obj [("x", .num (geocentric.x / 1000)),
                                   ("y", .num (geocentric.y / 1000)),
                                   ("z", .num (geocentric.z / 1000))]),
                ("groundTrack", .obj [("lat", .num geocentric.lat),
                                      ("lon", .num geocentric.lon),
                                      ("alt", .num altitude)]),
                ("stats", .obj [("altitude", .num (pyRound 1 altitude)),
                                ("velocity", .num (pyRound 2 velocity)),
                                ("latency", .num (pyRound 1 latency_ms)),
                                ("distance", .num (pyRound 1 distance))]),
                ("trajectory",
                  .arr ((calculate_trajectory satellite now 90).map trajPointJson)),
                ("cityPasses",
                  .arr ((calculate_city_passes satellite now CITIES).map cityPassJson)),
                ("cities", .arr (CITIES.map cityJson))])

/-- A propagator stub whose state is identically zero, used to
instantiate universally quantified theorems at a concrete input. -/
noncomputable def satZero : Satellite := ⟨fun _ => ⟨0, 0, 0, 0, 0, 0, 0, 0, 0⟩⟩

/-- A propagator stub whose subpoint sits exactly on the London table
entry, used to instantiate theorems at a concrete input. -/
noncomputable def satLondon : Satellite :=
  ⟨fun _ => ⟨0, 0, 0, 0, 0, 0, 51.5074, -0.1278, 400⟩⟩

example : find_satellite "Tell me about the ISS" = "ISS (ZARYA)" := by decide
example : find_satellite "no satellite mentioned" = "ISS (ZARYA)" := by decide
example : find_satellite "" = "ISS (ZARYA)" := by decide
example : find_satellite "gps hubble" = "HST" := by decide
example : pySplitlines ("A\n\nB").data = [['A'], [], ['B']] := by decide
example : pyStrip ("  x \n").data = ['x'] := by decide
example : validate_tle "X" "TITLE\nONLY ONE LINE" = .error (.notFound "X") := by decide
example : validate_tle "X" "A\n\nB" = .ok ("A", "", "B") := by decide
example : validate_tle "X" "A\n\n\nB" = .ok ("A", "", "") := by decide
example : validate_tle "X" " T \n L1\nL2 \nextra" = .ok ("T", "L1", "L2") := by decide
example : validate_tle "X" "A\n\n" = .error (.notFound "X") := by decide

/-- A find? scan returns the element at the first index whose predicate
holds, when all earlier indices fail the predicate. -/
theorem find?_eq_get_of_first {α : Type} (l : List α) (p : α → Bool) :
    ∀ (i : ℕ) (h : i < l.length), p (l.get ⟨i, h⟩) = true →
      (∀ j (hj : j < i), p (l.get ⟨j, Nat.lt_trans hj h⟩) = false) →
      l.find? p = some (l.get ⟨i, h⟩) := by
  induction l with
  | nil => intro i h; exact absurd h (Nat.not_lt_zero i)
  | cons a t ih =>
    intro i h hp hmin
    cases i with
    | zero =>
      simp only [List.get] at hp ⊢
      simp [List.find?_cons_of_pos, hp]
    | succ k =>
      have ha : p a = false := hmin 0 (Nat.succ_pos k)
      rw [List.find?_cons_of_neg _ (by simp [ha])]
      exact ih k (Nat.lt_of_succ_lt_succ h) hp
        (fun j hj => hmin (j + 1) (Nat.succ_lt_succ hj))

/-- C1: for every input containing a known keyword of the static
satellite table (case-insensitively, i.e. as a substring of the
lower-cased input), find_satellite returns the canonical name mapped by
the first such keyword in declared table order; for every input
containing no keyword, it returns the default ISS (ZARYA).  The two
spec scenarios are included as concrete conjuncts. -/
theorem C1_find_satellite_resolution (prompt : String) :
    (∀ (i : ℕ) (h : i < SATELLITES.length),
        containsKw (SATELLITES.get ⟨i, h⟩).1 (lowerStr prompt) = true →
        (∀ j (hj : j < i),
          containsKw (SATELLITES.get ⟨j, Nat.lt_trans hj h⟩).1 (lowerStr prompt) = false) →
        find_satellite prompt = (SATELLITES.get ⟨i, h⟩).2) ∧
    ((∀ kv ∈ SATELLITES, containsKw kv.1 (lowerStr prompt) = false) →
        find_satellite prompt = "ISS (ZARYA)") ∧
    find_satellite "Tell me about the ISS" = "ISS (ZARYA)" ∧
    find_satellite "no satellite mentioned" = "ISS (ZARYA)" := by
  refine ⟨?_, ?_, by decide, by decide⟩
  · intro i h hp hmin
    simp only [find_satellite]
    rw [find?_eq_get_of_first SATELLITES
      (fun kv => containsKw kv.1 (lowerStr prompt)) i h hp hmin]
  · intro hall
    simp only [find_satellite]
    rw [List.find?_eq_none.mpr (fun kv hkv => by simp [hall kv hkv])]

/-- C1 witness: the first-match rule applied at a concrete prompt that
contains the second keyword but not the first. -/
theorem C1_find_satellite_resolution_witness :
    find_satellite "Show the Hubble telescope" = "HST" :=
  (C1_find_satellite_resolution "Show the Hubble telescope").1 1 (by decide)
    (by decide) (by decide)

/-- C9: find_satellite is total with range inside the canonical names
of the static table: every result is one of the 10 (pairwise distinct)
canonical names, and the fallback ISS (ZARYA) is itself the value the
table maps the keyword iss to. -/
theorem C9_find_satellite_total_range :
    (∀ prompt, find_satellite prompt ∈ SATELLITES.map Prod.snd) ∧
    ("iss", "ISS (ZARYA)") ∈ SATELLITES ∧
    (SATELLITES.map Prod.snd).length = 10 ∧
    (SATELLITES.map Prod.snd).Nodup := by
  refine ⟨?_, by decide, by decide, by decide⟩
  intro prompt
  simp only [find_satellite]
  cases heq : SATELLITES.find? (fun kv => containsKw kv.1 (lowerStr prompt)) with
  | none => simp only [heq]; decide
  | some kv =>
    simp only [heq]
    exact List.mem_map_of_mem Prod.snd (List.mem_of_find?_eq_some heq)

/-- Characters prepended by consHead preserve a character-wise
predicate over all produced lines. -/
theorem consHead_no {c : Char} {P : Char → Prop} (hc : P c)
    (ls : List (List Char)) (h : ∀ l ∈ ls, ∀ x ∈ l, P x) :
    ∀ l ∈ consHead c ls, ∀ x ∈ l, P x := by
  cases ls with
  | nil =>
    intro l hl x hx
    simp [consHead] at hl
    subst hl; simp at hx; subst hx; exact hc
  | cons a as =>
    intro l hl x hx
    simp [consHead] at hl
    rcases hl with h1 | h2
    · subst h1
      rcases List.mem_cons.mp hx with rfl | hx2
      · exact hc
      · exact h a (by simp) x hx2
    · exact h l (by simp [h2]) x hx

/-- No produced line of pySplitlines contains a line-boundary
character. -/
theorem pySplitlines_no_boundary :
    ∀ (s : List Char), ∀ l ∈ pySplitlines s, ∀ x ∈ l, x ≠ '\n' ∧ x ≠ '\r' := by
  intro s
  induction s using pySplitlines.induct with
  | case1 => simp [pySplitlines]
  | case2 cs ih => simpa [pySplitlines] using ih
  | case3 cs ih => simpa [pySplitlines] using ih
  | case4 cs hne ih =>
    have he : pySplitlines ('\r' :: cs) = [] :: pySplitlines cs := by
      rcases cs with _ | ⟨c2, cs2⟩
      · simp [pySplitlines]
      · have : c2 ≠ '\n' := fun h => hne cs2 (by rw [h])
        simp [pySplitlines, this]
    rw [he]
    simpa using ih
  | case5 c cs h1 h2 h3 ih =>
    have hc1 : c ≠ '\n' := fun h => h1 h
    have hc3 : c ≠ '\r' := fun h => h3 h
    rw [show pySplitlines (c :: cs) = consHead c (pySplitlines cs) by
      simp [pySplitlines, hc1, hc3]]
    exact consHead_no ⟨hc1, hc3⟩ _ ih

/-- Unfolding equation of pySplitlines at a non-boundary head. -/
theorem pySplitlines_cons_of_ne (c : Char) (cs : List Char)
    (h1 : c ≠ '\n') (h2 : c ≠ '\r') :
    pySplitlines (c :: cs) = consHead c (pySplitlines cs) := by
  simp [pySplitlines, h1, h2]

/-- Splitting a body that starts with a boundary-free segment followed
by a newline yields that segment as the first line. -/
theorem pySplitlines_append (a rest : List Char)
    (ha : ∀ x ∈ a, x ≠ '\n' ∧ x ≠ '\r') :
    pySplitlines (a ++ '\n' :: rest) = a :: pySplitlines rest := by
  induction a with
  | nil => simp [pySplitlines]
  | cons c a' ih =>
    have hc := ha c (by simp)
    rw [List.cons_append, pySplitlines_cons_of_ne c _ hc.1 hc.2,
      ih (fun x hx => ha x (by simp [hx]))]
    rfl

/-- A non-empty boundary-free body is a single line. -/
theorem pySplitlines_single (a : List Char)
    (ha : ∀ x ∈ a, x ≠ '\n' ∧ x ≠ '\r') (hne : a ≠ []) :
    pySplitlines a = [a] := by
  induction a with
  | nil => exact absurd rfl hne
  | cons c a' ih =>
    have hc := ha c (by simp)
    rw [pySplitlines_cons_of_ne c _ hc.1 hc.2]
    cases e : a' with
    | nil => simp [e, pySplitlines, consHead]
    | cons d t =>
      rw [← e, ih (fun x hx => ha x (by simp [hx])) (by simp [e])]
      rfl

theorem nl_space : pyIsSpace '\n' = true := by decide

theorem cr_space : pyIsSpace '\r' = true := by decide

/-- A body starting with a non-whitespace character has a first line
starting with that character. -/
theorem pySplitlines_head_of_not_space (c : Char) (cs : List Char)
    (hc : pyIsSpace c = false) :
    ∃ t ls, pySplitlines (c :: cs) = (c :: t) :: ls := by
  have h1 : c ≠ '\n' := fun h => by rw [h] at hc; exact absurd nl_space (by simp [hc])
  have h2 : c ≠ '\r' := fun h => by rw [h] at hc; exact absurd cr_space (by simp [hc])
  rw [pySplitlines_cons_of_ne c _ h1 h2]
  cases pySplitlines cs with
  | nil => exact ⟨[], [], rfl⟩
  | cons l ls => exact ⟨l, ls, rfl⟩

/-- The head surviving a dropWhile fails the predicate. -/
theorem dropWhile_head?_not {p : Char → Bool} :
    ∀ (l : List Char), ∀ x ∈ (l.dropWhile p).head?, p x = false := by
  intro l
  induction l with
  | nil => simp
  | cons c t ih =>
    by_cases hc : p c
    · simpa [List.dropWhile_cons, hc] using ih
    · intro x hx
      simp [List.dropWhile_cons, hc] at hx
      subst hx
      simpa using hc

/-- pyStrip written with rdropWhile of Mathlib. -/
theorem pyStrip_eq_rdrop (l : List Char) :
    pyStrip l = (l.dropWhile pyIsSpace).rdropWhile pyIsSpace := rfl

/-- Stripping only removes characters. -/
theorem mem_pyStrip {x : Char} {l : List Char} (h : x ∈ pyStrip l) : x ∈ l := by
  rw [pyStrip_eq_rdrop] at h
  exact (List.dropWhile_suffix pyIsSpace).sublist.subset
    ((List.rdropWhile_prefix _ _).sublist.subset h)

/-- A stripped list does not start with whitespace. -/
theorem noLead_pyStrip (l : List Char) :
    ∀ x ∈ (pyStrip l).head?, pyIsSpace x = false := by
  intro x hx
  cases e : pyStrip l with
  | nil => rw [e] at hx; simp at hx
  | cons c t =>
    rw [e] at hx
    simp at hx
    subst hx
    rw [pyStrip_eq_rdrop] at e
    obtain ⟨s, hs⟩ := List.rdropWhile_prefix pyIsSpace (l.dropWhile pyIsSpace)
    rw [e] at hs
    have hd : l.dropWhile pyIsSpace = c :: (t ++ s) := by rw [← hs]; simp
    exact dropWhile_head?_not l c (by simp [hd])

/-- A stripped list does not end with whitespace. -/
theorem noTrail_pyStrip (l : List Char) :
    ∀ x ∈ (pyStrip l).getLast?, pyIsSpace x = false := by
  intro x hx
  rw [pyStrip_eq_rdrop, List.rdropWhile, List.getLast?_reverse] at hx
  exact dropWhile_head?_not _ x hx

/-- A list with no whitespace at either end is left unchanged by
pyStrip. -/
theorem pyStrip_eq_self (l : List Char)
    (h1 : ∀ x ∈ l.head?, pyIsSpace x = false)
    (h2 : ∀ x ∈ l.getLast?, pyIsSpace x = false) :
    pyStrip l = l := by
  rw [pyStrip_eq_rdrop]
  have hd : l.dropWhile pyIsSpace = l := by
    cases l with
    | nil => rfl
    | cons c t =>
      have := h1 c (by simp)
      simp [List.dropWhile_cons, this]
  rw [hd, List.rdropWhile_eq_self_iff]
  intro hl
  have hmem : l.getLast hl ∈ l.getLast? := by
    rw [List.getLast?_eq_getLast _ hl]
    exact Option.mem_def.mpr rfl
  simp [h2 (l.getLast hl) hmem]

/-- pyStrip is idempotent. -/
theorem pyStrip_idem (l : List Char) : pyStrip (pyStrip l) = pyStrip l :=
  pyStrip_eq_self _ (noLead_pyStrip l) (noTrail_pyStrip l)

/-- Stripping a list with a non-whitespace head is non-empty. -/
theorem pyStrip_ne_nil_of_head (c : Char) (t : List Char)
    (hc : pyIsSpace c = false) : pyStrip (c :: t) ≠ [] := by
  rw [pyStrip_eq_rdrop]
  intro h
  rw [List.rdropWhile_eq_nil_iff] at h
  have hd : (c :: t).dropWhile pyIsSpace = c :: t := by
    simp [List.dropWhile_cons, hc]
  rw [hd] at h
  have := h c (by simp)
  rw [hc] at this
  exact Bool.noConfusion this

/-- validate_tle on a body with at least three lines returns the first
three lines stripped. -/
theorem validate_tle_of_lines (sat_name body : String) (a b c : List Char)
    (r : List (List Char))
    (h : pySplitlines (pyStrip body.data) = a :: b :: c :: r) :
    validate_tle sat_name body = .ok (⟨pyStrip a⟩, ⟨pyStrip b⟩, ⟨pyStrip c⟩) := by
  unfold validate_tle
  simp only [h]
  have hlen : ¬ (a :: b :: c :: r).length < 3 := by simp
  simp [hlen, h]

/-- validate_tle on a body with fewer than three lines raises the
not-found error. -/
theorem validate_tle_err_of_short (sat_name body : String)
    (h : (pySplitlines (pyStrip body.data)).length < 3) :
    validate_tle sat_name body = .error (.notFound sat_name) := by
  unfold validate_tle
  simp [h]

/-- Inversion: a successful validate_tle arose from a body with at
least three lines, the first three of which strip to the output. -/
theorem validate_tle_ok_inv (sat_name body l0 l1 l2 : String)
    (h : validate_tle sat_name body = .ok (l0, l1, l2)) :
    ∃ a b c r, pySplitlines (pyStrip body.data) = a :: b :: c :: r ∧
      l0.data = pyStrip a ∧ l1.data = pyStrip b ∧ l2.data = pyStrip c := by
  rcases e : pySplitlines (pyStrip body.data) with _ | ⟨a, _ | ⟨b, _ | ⟨c, r⟩⟩⟩
  · rw [validate_tle_err_of_short _ _ (by rw [e]; simp)] at h
    exact Except.noConfusion h
  · rw [validate_tle_err_of_short _ _ (by rw [e]; simp)] at h
    exact Except.noConfusion h
  · rw [validate_tle_err_of_short _ _ (by rw [e]; simp)] at h
    exact Except.noConfusion h
  · refine ⟨a, b, c, r, rfl, ?_, ?_, ?_⟩ <;>
      · rw [validate_tle_of_lines sat_name body a b c r e] at h
        injection h with h'
        first
          | exact (congrArg String.data (congrArg Prod.fst h')).symm
          | exact (congrArg String.data (congrArg Prod.fst (congrArg Prod.snd h'))).symm
          | exact (congrArg String.data (congrArg Prod.snd (congrArg Prod.snd h'))).symm

/-- A non-empty string has non-empty character data. -/
theorem string_ne_nil {s : String} (h : s ≠ "") : s.data ≠ [] := by
  intro hd
  apply h
  cases s
  simp at hd
  simp [hd]

/-- C2 counterexample: the response body A LF LF B has only 2 non-empty
lines, yet fetch_tle does not raise its not-found error: the interior
empty line is counted by splitlines, so the body passes the 3-line gate
and parses successfully.  This refutes the claim that fetch_tle fails
for every response whose non-empty line count is below 3. -/
theorem C2_nonempty_line_counterexample :
    ((pySplitlines (("A\n\nB").data)).filter (fun l => !l.isEmpty)).length = 2 ∧
    fetch_tle (fun _ => .response 200 "A\n\nB") "SAT" = .ok ("A", "", "B") := by
  decide

/-- C2 amended: fetch_tle raises its not-found error exactly when the
response body, stripped of leading and trailing whitespace, splits into
fewer than 3 lines, where interior empty lines are counted; in
particular the two-line response TITLE LF ONLY ONE LINE fails. -/
theorem C2_line_count_gate (sat_name body : String) :
    (fetch_tle (fun _ => .response 200 body) sat_name =
        .error (.notFound sat_name) ↔
      (pySplitlines (pyStrip body.data)).length < 3) ∧
    fetch_tle (fun _ => .response 200 "TITLE\nONLY ONE LINE") sat_name =
      .error (.notFound sat_name) := by
  constructor
  · unfold fetch_tle validate_tle
    by_cases h : (pySplitlines (pyStrip body.data)).length < 3 <;> simp [h]
  · unfold fetch_tle validate_tle
    simp [show (pySplitlines (pyStrip ("TITLE\nONLY ONE LINE").data)).length < 3 by decide]

/-- C5 counterexample: a non-2xx (404) response does not produce a
transport-class error: its body is parsed like any other response, so
the claim that every non-2xx status raises a transport error is false. -/
theorem C5_non2xx_counterexample :
    fetch_tle (fun _ => .response 404 "T\nL1\nL2") "SAT" = .ok ("T", "L1", "L2") ∧
    ¬ ∃ m, fetch_tle (fun _ => .response 404 "T\nL1\nL2") "SAT" =
      .error (.transport m) := by
  refine ⟨by decide, ?_⟩
  rintro ⟨m, hm⟩
  rw [show fetch_tle (fun _ => .response 404 "T\nL1\nL2") "SAT" =
       .ok ("T", "L1", "L2") from by decide] at hm
  exact Except.noConfusion hm

/-- C5 amended: fetch_tle fails with a transport-class error on timeout
and on connection failure of its single GET; the HTTP status of a
received response is ignored and its body is parsed regardless; and the
result depends only on the one response at the templated URL (no retry,
no second request). -/
theorem C5_transport_behavior :
    (∀ g sat_name m, g (tle_url sat_name) = .timeout m →
        fetch_tle g sat_name = .error (.transport m)) ∧
    (∀ g sat_name m, g (tle_url sat_name) = .connectionFailure m →
        fetch_tle g sat_name = .error (.transport m)) ∧
    (∀ g sat_name st body, g (tle_url sat_name) = .response st body →
        fetch_tle g sat_name = validate_tle sat_name body) ∧
    (∀ g g2 sat_name, g (tle_url sat_name) = g2 (tle_url sat_name) →
        fetch_tle g sat_name = fetch_tle g2 sat_name) := by
  refine ⟨?_, ?_, ?_, ?_⟩
  · intro g n m h; unfold fetch_tle; rw [h]
  · intro g n m h; unfold fetch_tle; rw [h]
  · intro g n st body h; unfold fetch_tle; rw [h]
  · intro g g2 n h; unfold fetch_tle; rw [h]

/-- C5 witness: the amended theorem applied to a client that times
out. -/
theorem C5_transport_behavior_witness :
    fetch_tle (fun _ => .timeout "timed out") "SAT" =
      .error (.transport "timed out") :=
  C5_transport_behavior.1 (fun _ => .timeout "timed out") "SAT" "timed out" rfl

/-- C6 counterexample: for the name ISS (ZARYA) the code builds the GET
URL with the name substituted verbatim: the URL contains a literal
space and differs from the URL built from the URL-encoded name, so the
claim that the URL-encoded form is substituted is false. -/
theorem C6_url_encoding_counterexample :
    tle_url "ISS (ZARYA)" =
      "https://celestrak.org/NORAD/elements/gp.php?NAME=ISS (ZARYA)&FORMAT=tle" ∧
    ' ' ∈ (tle_url "ISS (ZARYA)").data ∧
    tle_url "ISS (ZARYA)" ≠
      "https://celestrak.org/NORAD/elements/gp.php?NAME=" ++
        urlEncode "ISS (ZARYA)" ++ "&FORMAT=tle" := by
  decide

/-- C6 amended: the request URL is built by substituting the canonical
name verbatim (un-encoded) into the fixed template, so every character
of the name, including spaces and parentheses, appears as-is in the
URL. -/
theorem C6_url_verbatim (sat_name : String) :
    tle_url sat_name =
      "https://celestrak.org/NORAD/elements/gp.php?NAME=" ++ sat_name ++
        "&FORMAT=tle" ∧
    ∀ c ∈ sat_name.data, c ∈ (tle_url sat_name).data := by
  refine ⟨rfl, fun c hc => ?_⟩
  show c ∈ (("https://celestrak.org/NORAD/elements/gp.php?NAME=" ++ sat_name ++
      "&FORMAT=tle") : String).data
  have : (("https://celestrak.org/NORAD/elements/gp.php?NAME=" ++ sat_name ++
      "&FORMAT=tle") : String).data =
      ("https://celestrak.org/NORAD/elements/gp.php?NAME=").data ++
        sat_name.data ++ ("&FORMAT=tle").data := rfl
  rw [this]
  simp [hc]

/-- C6 witness: the amended theorem applied at the name ISS (ZARYA) and
its space character. -/
theorem C6_url_verbatim_witness : ' ' ∈ (tle_url "ISS (ZARYA)").data :=
  (C6_url_verbatim "ISS (ZARYA)").2 ' ' (by decide)

/-- C10: when the stripped response splits into at least three lines,
fetch_tle returns exactly the first three, each stripped of leading and
trailing whitespace, and the result does not depend on any further
lines. -/
theorem C10_first_three_lines :
    (∀ (sat_name body : String) (a b c : List Char) (r : List (List Char)),
        pySplitlines (pyStrip body.data) = a :: b :: c :: r →
        fetch_tle (fun _ => .response 200 body) sat_name =
          .ok (⟨pyStrip a⟩, ⟨pyStrip b⟩, ⟨pyStrip c⟩)) ∧
    (∀ (sat_name b1 b2 : String) (a b c : List Char)
        (r1 r2 : List (List Char)),
        pySplitlines (pyStrip b1.data) = a :: b :: c :: r1 →
        pySplitlines (pyStrip b2.data) = a :: b :: c :: r2 →
        fetch_tle (fun _ => .response 200 b1) sat_name =
          fetch_tle (fun _ => .response 200 b2) sat_name) := by
  have main : ∀ (sat_name body : String) (a b c : List Char)
      (r : List (List Char)),
      pySplitlines (pyStrip body.data) = a :: b :: c :: r →
      fetch_tle (fun _ => .response 200 body) sat_name =
        .ok (⟨pyStrip a⟩, ⟨pyStrip b⟩, ⟨pyStrip c⟩) :=
    fun sat_name body a b c r h => validate_tle_of_lines sat_name body a b c r h
  exact ⟨main, fun sat_name b1 b2 a b c r1 r2 h1 h2 =>
    (main sat_name b1 a b c r1 h1).trans (main sat_name b2 a b c r2 h2).symm⟩

/-- C10 witness: a four-line catalog response (as returned when several
objects match) yields exactly the first three lines, stripped. -/
theorem C10_first_three_lines_witness :
    fetch_tle (fun _ => .response 200 "T \n L1\nL2\nEXTRA LINE") "SAT" =
      .ok ("T", "L1", "L2") :=
  (C10_first_three_lines.1 "SAT" "T \n L1\nL2\nEXTRA LINE"
      ("T ").data (" L1").data ("L2").data [("EXTRA LINE").data]
      (by decide)).trans (by decide)

/-- C7 counterexample: on the body A LF LF LF B fetch_tle succeeds and
returns a third line that strips to empty; rejoining the three returned
lines with newlines gives A LF LF, whose trailing newlines are stripped
before splitting, leaving a single line, so re-validation raises the
not-found error.  This refutes the claimed unconditional round-trip. -/
theorem C7_roundtrip_counterexample :
    fetch_tle (fun _ => .response 200 "A\n\n\nB") "SAT" = .ok ("A", "", "") ∧
    validate_tle "SAT" ("A" ++ "\n" ++ "" ++ "\n" ++ "") =
      .error (.notFound "SAT") := by
  decide

/-- C7 amended: for every catalog response on which fetch_tle succeeds
with a non-empty third returned line, joining the three returned lines
with newlines and running the result through the same element
validation raises no error and reproduces the three lines. -/
theorem C7_roundtrip_revalidation (sat_name sat_name2 body l0 l1 l2 : String)
    (h : fetch_tle (fun _ => .response 200 body) sat_name = .ok (l0, l1, l2))
    (hl2 : l2 ≠ "") :
    validate_tle sat_name2 (l0 ++ "\n" ++ l1 ++ "\n" ++ l2) = .ok (l0, l1, l2) := by
  have hv : validate_tle sat_name body = .ok (l0, l1, l2) := h
  obtain ⟨a, b, c, r, he, h0, h1, h2⟩ := validate_tle_ok_inv _ _ _ _ _ hv
  have hnl := pySplitlines_no_boundary (pyStrip body.data)
  have hna : ∀ x ∈ a, x ≠ '\n' ∧ x ≠ '\r' := fun x hx => hnl a (by rw [he]; simp) x hx
  have hnb : ∀ x ∈ b, x ≠ '\n' ∧ x ≠ '\r' := fun x hx => hnl b (by rw [he]; simp) x hx
  have hnc : ∀ x ∈ c, x ≠ '\n' ∧ x ≠ '\r' := fun x hx => hnl c (by rw [he]; simp) x hx
  have hn0 : ∀ x ∈ l0.data, x ≠ '\n' ∧ x ≠ '\r' := by
    rw [h0]; exact fun x hx => hna x (mem_pyStrip hx)
  have hn1 : ∀ x ∈ l1.data, x ≠ '\n' ∧ x ≠ '\r' := by
    rw [h1]; exact fun x hx => hnb x (mem_pyStrip hx)
  have hn2 : ∀ x ∈ l2.data, x ≠ '\n' ∧ x ≠ '\r' := by
    rw [h2]; exact fun x hx => hnc x (mem_pyStrip hx)
  have hsne : pyStrip body.data ≠ [] := by
    intro hnil; rw [hnil] at he; simp [pySplitlines] at he
  obtain ⟨ch, s', hs⟩ := List.exists_cons_of_ne_nil hsne
  have hch : pyIsSpace ch = false :=
    noLead_pyStrip body.data ch (by rw [hs]; exact Option.mem_def.mpr rfl)
  obtain ⟨t0, ls0, hfl⟩ := pySplitlines_head_of_not_space ch s' hch
  rw [← hs, he] at hfl
  have ha_eq : a = ch :: t0 := ((List.cons.injEq _ _ _ _).mp hfl).1
  have h0ne : l0.data ≠ [] := by
    rw [h0, ha_eq]; exact pyStrip_ne_nil_of_head ch t0 hch
  have h2ne : l2.data ≠ [] := string_ne_nil hl2
  have hjdata : (l0 ++ "\n" ++ l1 ++ "\n" ++ l2).data
      = l0.data ++ '\n' :: (l1.data ++ '\n' :: l2.data) := by
    show l0.data ++ ('\n' :: []) ++ l1.data ++ ('\n' :: []) ++ l2.data = _
    simp
  have hlead0 : ∀ x ∈ l0.data.head?, pyIsSpace x = false := by
    rw [h0]; exact noLead_pyStrip a
  have htrail2 : ∀ x ∈ l2.data.getLast?, pyIsSpace x = false := by
    rw [h2]; exact noTrail_pyStrip c
  have hlead : ∀ x ∈ (l0.data ++ '\n' :: (l1.data ++ '\n' :: l2.data)).head?,
      pyIsSpace x = false := by
    intro x hx
    rw [List.head?_append] at hx
    obtain ⟨c0, t0', h0'⟩ := List.exists_cons_of_ne_nil h0ne
    rw [h0'] at hx
    simp at hx
    subst hx
    exact hlead0 c0 (by rw [h0']; exact Option.mem_def.mpr rfl)
  have htrail : ∀ x ∈ (l0.data ++ '\n' :: (l1.data ++ '\n' :: l2.data)).getLast?,
      pyIsSpace x = false := by
    intro x hx
    have hrepr : l0.data ++ '\n' :: (l1.data ++ '\n' :: l2.data)
        = (l0.data ++ '\n' :: l1.data ++ ['\n']) ++ l2.data := by simp
    rw [hrepr, List.getLast?_append] at hx
    obtain ⟨c2, t2', h2'⟩ := List.exists_cons_of_ne_nil h2ne
    have hsome := List.getLast?_eq_getLast (c2 :: t2') (by simp)
    rw [h2', hsome] at hx
    simp at hx
    subst hx
    exact htrail2 _ (by rw [h2', hsome]; exact Option.mem_def.mpr rfl)
  have hstripj : pyStrip (l0.data ++ '\n' :: (l1.data ++ '\n' :: l2.data))
      = l0.data ++ '\n' :: (l1.data ++ '\n' :: l2.data) :=
    pyStrip_eq_self _ hlead htrail
  have hsplitj : pySplitlines (l0.data ++ '\n' :: (l1.data ++ '\n' :: l2.data))
      = [l0.data, l1.data, l2.data] := by
    rw [pySplitlines_append _ _ hn0, pySplitlines_append _ _ hn1,
      pySplitlines_single _ hn2 h2ne]
  have hfinal := validate_tle_of_lines sat_name2 (l0 ++ "\n" ++ l1 ++ "\n" ++ l2)
    l0.data l1.data l2.data [] (by rw [hjdata, hstripj, hsplitj])
  rw [hfinal]
  have e0 : pyStrip l0.data = l0.data := by rw [h0]; exact pyStrip_idem a
  have e1 : pyStrip l1.data = l1.data := by rw [h1]; exact pyStrip_idem b
  have e2 : pyStrip l2.data = l2.data := by rw [h2]; exact pyStrip_idem c
  rw [e0, e1, e2]

/-- C7 witness: the amended round-trip applied to a concrete well-formed
three-line response. -/
theorem C7_roundtrip_revalidation_witness :
    validate_tle "SAT2" ("T" ++ "\n" ++ "L1" ++ "\n" ++ "L2") =
      .ok ("T", "L1", "L2") :=
  C7_roundtrip_revalidation "SAT" "SAT2" "T\nL1\nL2" "T" "L1" "L2"
    (by decide) (by decide)

/-- C3: for every propagator, start instant and duration, the
trajectory has exactly duration_minutes * 6 samples (540 for the fixed
90-minute horizon used by the handler); the sample instants are spaced
exactly 10 simulated seconds (10/86400 Julian days) apart and strictly
increase; and the i-th sample carries the propagated position at the
i-th instant divided by the fixed display scale 1000 together with the
ground-track latitude, longitude and altitude. -/
theorem C3_trajectory_sampling :
    (∀ satellite now duration_minutes,
      (calculate_trajectory satellite now duration_minutes).length =
        duration_minutes * 6) ∧
    (∀ satellite now, (calculate_trajectory satellite now 90).length = 540) ∧
    (∀ now i, trajTime now (i + 1) - trajTime now i = 10 / 86400) ∧
    (∀ now i j, i < j → trajTime now i < trajTime now j) ∧
    (∀ satellite now duration_minutes i
        (h : i < (calculate_trajectory satellite now duration_minutes).length),
      (calculate_trajectory satellite now duration_minutes).get ⟨i, h⟩ =
        ⟨(satellite.atTime (trajTime now i)).x / 1000,
         (satellite.atTime (trajTime now i)).y / 1000,
         (satellite.atTime (trajTime now i)).z / 1000,
         (satellite.atTime (trajTime now i)).lat,
         (satellite.atTime (trajTime now i)).lon,
         (satellite.atTime (trajTime now i)).alt⟩) := by
  refine ⟨?_, ?_, ?_, ?_, ?_⟩
  · intro satellite now d
    simp [calculate_trajectory]
  · intro satellite now
    simp [calculate_trajectory]
  · intro now i
    unfold trajTime
    push_cast
    ring
  · intro now i j hij
    unfold trajTime
    have hq : (i : ℚ) < (j : ℚ) := by exact_mod_cast hij
    have : (i : ℚ) * 10 / 86400 < (j : ℚ) * 10 / 86400 := by
      apply div_lt_div_of_pos_right ?_ (by norm_num)
      linarith
    linarith
  · intro satellite now d i h
    simp only [calculate_trajectory] at h ⊢
    rw [List.get_eq_getElem]
    simp

/-- C3 witness: the sampling theorem applied to a concrete propagator
stub at the head sample. -/
theorem C3_trajectory_sampling_witness :
    (calculate_trajectory satZero 0 90).length = 540 ∧
    trajTime 0 0 < trajTime 0 1 ∧
    (calculate_trajectory satZero 0 90).get
        ⟨0, by simp [calculate_trajectory]⟩ = ⟨0, 0, 0, 0, 0, 0⟩ := by
  refine ⟨C3_trajectory_sampling.2.1 satZero 0,
    C3_trajectory_sampling.2.2.2.1 0 0 1 (by norm_num), ?_⟩
  rw [C3_trajectory_sampling.2.2.2.2 satZero 0 90 0 (by simp [calculate_trajectory])]
  simp [satZero]

/-- Inversion: every emitted city pass comes from a table city whose
degree-space distance to the current subpoint is below 10, and carries
that distance times 111, rounded. -/
theorem city_passes_mem_inv (satellite : Satellite) (now : ℚ)
    (cities : List (String × ℝ × ℝ)) (p : CityPass)
    (hp : p ∈ calculate_city_passes satellite now cities) :
    ∃ c ∈ cities,
      Real.sqrt (((satellite.atTime now).lat - c.2.1) ^ 2 +
        ((satellite.atTime now).lon - c.2.2) ^ 2) < 10 ∧
      p = ⟨c.1, pyRound 1 (Real.sqrt (((satellite.atTime now).lat - c.2.1) ^ 2 +
        ((satellite.atTime now).lon - c.2.2) ^ 2) * 111), c.2.1, c.2.2⟩ := by
  induction cities with
  | nil => simp [calculate_city_passes] at hp
  | cons c rest ih =>
    obtain ⟨nm, clat, clon⟩ := c
    simp only [calculate_city_passes, List.mem_append] at hp
    rcases hp with h1 | h2
    · by_cases hd : Real.sqrt (((satellite.atTime now).lat - clat) ^ 2 +
          ((satellite.atTime now).lon - clon) ^ 2) < 10
      · rw [if_pos hd] at h1
        simp at h1
        exact ⟨(nm, clat, clon), by simp, hd, h1⟩
      · rw [if_neg hd] at h1
        simp at h1
    · obtain ⟨c', hc', hd', hp'⟩ := ih h2
      exact ⟨c', by simp [hc'], hd', hp'⟩

/-- Every table city whose degree-space distance to the current
subpoint is below 10 is emitted. -/
theorem city_passes_mem (satellite : Satellite) (now : ℚ)
    (cities : List (String × ℝ × ℝ)) (nm : String) (clat clon : ℝ)
    (hc : (nm, clat, clon) ∈ cities)
    (hd : Real.sqrt (((satellite.atTime now).lat - clat) ^ 2 +
      ((satellite.atTime now).lon - clon) ^ 2) < 10) :
    (⟨nm, pyRound 1 (Real.sqrt (((satellite.atTime now).lat - clat) ^ 2 +
      ((satellite.atTime now).lon - clon) ^ 2) * 111), clat, clon⟩ : CityPass) ∈
      calculate_city_passes satellite now cities := by
  induction cities with
  | nil => simp at hc
  | cons c rest ih =>
    rcases List.mem_cons.mp hc with heq | hmem
    · subst heq
      simp only [calculate_city_passes, List.mem_append]
      left
      rw [if_pos hd]
      simp
    · obtain ⟨nm2, clat2, clon2⟩ := c
      simp only [calculate_city_passes, List.mem_append]
      right
      exact ih hmem

/-- The city-pass loop is the order-preserving filterMap of the city
table. -/
theorem city_passes_eq_filterMap (satellite : Satellite) (now : ℚ)
    (cities : List (String × ℝ × ℝ)) :
    calculate_city_passes satellite now cities =
      cities.filterMap (fun c =>
        if Real.sqrt (((satellite.atTime now).lat - c.2.1) ^ 2 +
            ((satellite.atTime now).lon - c.2.2) ^ 2) < 10
        then some ⟨c.1, pyRound 1 (Real.sqrt (((satellite.atTime now).lat - c.2.1) ^ 2 +
            ((satellite.atTime now).lon - c.2.2) ^ 2) * 111), c.2.1, c.2.2⟩
        else none) := by
  induction cities with
  | nil => simp [calculate_city_passes]
  | cons c rest ih =>
    obtain ⟨nm, clat, clon⟩ := c
    simp only [calculate_city_passes, List.filterMap_cons]
    by_cases hd : Real.sqrt (((satellite.atTime now).lat - clat) ^ 2 +
        ((satellite.atTime now).lon - clon) ^ 2) < 10
    · rw [if_pos hd, if_pos hd, ih]
      rfl
    · rw [if_neg hd, if_neg hd, ih]
      rfl

/-- A coordinate is dominated by the euclidean norm. -/
theorem abs_le_sqrt_add (u v : ℝ) : |u| ≤ Real.sqrt (u ^ 2 + v ^ 2) := by
  rw [← Real.sqrt_sq_eq_abs]
  exact Real.sqrt_le_sqrt (by nlinarith [sq_nonneg v])

/-- C4: the proximity analyzer is the filterMap of the static city
table in declared order, keeping exactly the cities whose euclidean
degree-space distance to the current subpoint is strictly below 10 and
reporting that distance times the fixed 111 km/degree factor (rounded
to one decimal); a subpoint exactly on a table city yields that city
with distance 0, and a city more than 10 degrees away in both axes is
never emitted. -/
theorem C4_city_proximity :
    (∀ satellite now, calculate_city_passes satellite now CITIES =
      CITIES.filterMap (fun c =>
        if Real.sqrt (((satellite.atTime now).lat - c.2.1) ^ 2 +
            ((satellite.atTime now).lon - c.2.2) ^ 2) < 10
        then some ⟨c.1,
          pyRound 1 (Real.sqrt (((satellite.atTime now).lat - c.2.1) ^ 2 +
            ((satellite.atTime now).lon - c.2.2) ^ 2) * 111), c.2.1, c.2.2⟩
        else none)) ∧
    (∀ satellite now nm clat clon, (nm, clat, clon) ∈ CITIES →
      ((∃ p ∈ calculate_city_passes satellite now CITIES,
          p = ⟨nm, pyRound 1 (Real.sqrt (((satellite.atTime now).lat - clat) ^ 2 +
            ((satellite.atTime now).lon - clon) ^ 2) * 111), clat, clon⟩) ↔
        Real.sqrt (((satellite.atTime now).lat - clat) ^ 2 +
          ((satellite.atTime now).lon - clon) ^ 2) < 10)) ∧
    (∀ satellite now, (satellite.atTime now).lat = 51.5074 →
      (satellite.atTime now).lon = -0.1278 →
      (⟨"London", 0, 51.5074, -0.1278⟩ : CityPass) ∈
        calculate_city_passes satellite now CITIES) ∧
    (∀ satellite now nm clat clon, (nm, clat, clon) ∈ CITIES →
      10 < |(satellite.atTime now).lat - clat| →
      10 < |(satellite.atTime now).lon - clon| →
      ∀ p ∈ calculate_city_passes satellite now CITIES,
        ¬(p.city = nm ∧ p.lat = clat ∧ p.lon = clon)) := by
  refine ⟨fun satellite now => city_passes_eq_filterMap satellite now CITIES,
    ?_, ?_, ?_⟩
  · intro satellite now nm clat clon hc
    constructor
    · rintro ⟨p, hp, rfl⟩
      obtain ⟨c', hc', hd', hpe⟩ := city_passes_mem_inv satellite now CITIES _ hp
      have hlat2 : clat = c'.2.1 := congrArg CityPass.lat hpe
      have hlon2 : clon = c'.2.2 := congrArg CityPass.lon hpe
      rw [← hlat2, ← hlon2] at hd'
      exact hd'
    · intro hd
      exact ⟨_, city_passes_mem satellite now CITIES nm clat clon hc hd, rfl⟩
  · intro satellite now hlat hlon
    have hdist : Real.sqrt (((satellite.atTime now).lat - 51.5074) ^ 2 +
        ((satellite.atTime now).lon - (-0.1278)) ^ 2) = 0 := by
      rw [hlat, hlon]
      rw [show ((51.5074 : ℝ) - 51.5074) ^ 2 + ((-0.1278 : ℝ) - (-0.1278)) ^ 2 = 0
        by norm_num]
      exact Real.sqrt_zero
    have hm := city_passes_mem satellite now CITIES "London" 51.5074 (-0.1278)
      (by simp [CITIES]) (by rw [hdist]; norm_num)
    rw [hdist] at hm
    simpa [pyRound] using hm
  · rintro satellite now nm clat clon hc h1 h2 p hp ⟨he1, he2, he3⟩
    obtain ⟨c', hc', hd', hpe⟩ := city_passes_mem_inv satellite now CITIES _ hp
    have hlat : p.lat = c'.2.1 := by rw [hpe]
    have hlon : p.lon = c'.2.2 := by rw [hpe]
    rw [he2] at hlat
    rw [he3] at hlon
    rw [← hlat, ← hlon] at hd'
    have := abs_le_sqrt_add ((satellite.atTime now).lat - clat)
      ((satellite.atTime now).lon - clon)
    linarith

/-- C4 witness: a subpoint exactly on the London table entry yields the
London pass with distance 0. -/
theorem C4_city_proximity_witness :
    (⟨"London", 0, 51.5074, -0.1278⟩ : CityPass) ∈
      calculate_city_passes satLondon 0 CITIES :=
  C4_city_proximity.2.2.1 satLondon 0 rfl rfl

/-- C8: every response of the POST handler carries a boolean success
field; when the request pipeline fails, the handler answers exactly 500
with the uniform three-field envelope holding the error text and the
fixed hint, and no payload key; when it succeeds, it answers 200 with
success true, the full fixed payload key list, and no error or message
key.  The handler is a total function, so no failure escapes it. -/
theorem C8_error_envelope :
    (∀ get mkSat now body,
      ∃ b, jsonLookup (get_satellite get mkSat now body).2 "success" =
        some (.bool b)) ∧
    (∀ get mkSat now body e,
      fetch_tle get (find_satellite body) = .error e →
      get_satellite get mkSat now body =
        (500, .obj [("success", .bool false), ("error", .str (errMsg e)),
          ("message", .str "Try: ISS, Starlink, Hubble, NOAA, Tiangong")])) ∧
    (∀ get mkSat now body e,
      fetch_tle get (find_satellite body) = .error e →
      jsonKeys (get_satellite get mkSat now body).2 =
        ["success", "error", "message"]) ∧
    (∀ get mkSat now body t,
      fetch_tle get (find_satellite body) = .ok t →
      (get_satellite get mkSat now body).1 = 200 ∧
      jsonLookup (get_satellite get mkSat now body).2 "success" =
        some (.bool true) ∧
      jsonLookup (get_satellite get mkSat now body).2 "error" = none ∧
      jsonLookup (get_satellite get mkSat now body).2 "message" = none ∧
      jsonKeys (get_satellite get mkSat now body).2 =
        ["success", "name", "position", "groundTrack", "stats",
         "trajectory", "cityPasses", "cities"]) := by
  have herr : ∀ (get : String → HttpOutcome) mkSat now body e,
      fetch_tle get (find_satellite body) = .error e →
      get_satellite get mkSat now body =
        (500, .obj [("success", .bool false), ("error", .str (errMsg e)),
          ("message", .str "Try: ISS, Starlink, Hubble, NOAA, Tiangong")]) := by
    intro get mkSat now body e heq
    unfold get_satellite
    rw [heq]
  have hok : ∀ (get : String → HttpOutcome) mkSat now body
      (t : String × String × String),
      fetch_tle get (find_satellite body) = .ok t →
      (get_satellite get mkSat now body).1 = 200 ∧
      jsonLookup (get_satellite get mkSat now body).2 "success" =
        some (.bool true) ∧
      jsonLookup (get_satellite get mkSat now body).2 "error" = none ∧
      jsonLookup (get_satellite get mkSat now body).2 "message" = none ∧
      jsonKeys (get_satellite get mkSat now body).2 =
        ["success", "name", "position", "groundTrack", "stats",
         "trajectory", "cityPasses", "cities"] := by
    intro get mkSat now body t heq
    obtain ⟨name, line1, line2⟩ := t
    unfold get_satellite
    rw [heq]
    refine ⟨rfl, ?_, ?_, ?_, rfl⟩ <;> rfl
  refine ⟨?_, herr, ?_, hok⟩
  · intro get mkSat now body
    cases heq : fetch_tle get (find_satellite body) with
    | error e =>
      rw [herr get mkSat now body e heq]
      exact ⟨false, rfl⟩
    | ok t =>
      exact ⟨true, (hok get mkSat now body t heq).2.1⟩
  · intro get mkSat now body e heq
    rw [herr get mkSat now body e heq]
    rfl

/-- C8 witness: the envelope equality applied to a client that times
out, at a concrete stub propagator. -/
theorem C8_error_envelope_witness :
    get_satellite (fun _ => .timeout "boom") (fun _ _ _ => satZero) 0 "" =
      (500, .obj [("success", .bool false), ("error", .str "boom"),
        ("message", .str "Try: ISS, Starlink, Hubble, NOAA, Tiangong")]) :=
  C8_error_envelope.2.1 (fun _ => .timeout "boom") (fun _ _ _ => satZero) 0 ""
    (.transport "boom") (by decide)

end SatViz
